import Mathlib

/-!
# NEXUS Interview AI — verification of the adaptive interview orchestration core

Shallow embedding of the asynchronous, multi-session core of the NEXUS
interview system (`nexus_core/structs.py`, `nexus_core/orchestrator.py`,
`nexus_core/llm_gateway.py`).  Pydantic models become Lean structures
(Python `float` is modelled by `ℚ`, `int` by `ℤ`, list indices by `Nat`);
the orchestrator's stateful methods become pure functions that take the
session and the outcomes of the language-model gateway calls (the model is
a fallible oracle, so each gateway call is an explicit `Option`/`Except`
argument) and return the updated session together with the produced value;
a raised exception that escapes a method is an `Except.error`.
-/

namespace Nexus

/-! ## Data model (`nexus_core/structs.py`) -/

/-- `Experience` (structs.py). -/
structure Experience where
  title : String
  company : String
  duration : String
  highlights : List String
  deriving DecidableEq

/-- `Education` (structs.py). -/
structure Education where
  degree : String
  institution : String
  year : String
  deriving DecidableEq

/-- `CVAnalysis` (structs.py). -/
structure CVAnalysis where
  name : Option String
  skills : List String
  experience_years : ℚ
  experiences : List Experience
  education : List Education
  projects : List String
  tools : List String
  summary : String
  deriving DecidableEq

/-- `JDAnalysis` (structs.py). -/
structure JDAnalysis where
  title : String
  company : Option String
  required_skills : List String
  preferred_skills : List String
  experience_required : String
  education_required : String
  key_responsibilities : List String
  soft_skills : List String
  summary : String
  deriving DecidableEq

/-- `ProbeArea.priority` literal values (structs.py). -/
inductive Priority where
  | high | medium | low
  deriving DecidableEq

/-- `ProbeArea` (structs.py). -/
structure ProbeArea where
  area : String
  reason : String
  priority : Priority
  deriving DecidableEq

/-- `GapAnalysis` (structs.py).  Pydantic additionally validates
`0 ≤ match_score ≤ 100` at parse time. -/
structure GapAnalysis where
  match_score : ℚ
  matched_skills : List String
  missing_skills : List String
  experience_gap : String
  education_match : Bool
  strengths : List String
  concerns : List String
  probe_areas : List ProbeArea
  deriving DecidableEq

/-- `Question.category` literal values (structs.py). -/
inductive Category where
  | technical | behavioral | situational | competency | introduction | closing
  deriving DecidableEq

/-- `Question` (structs.py). -/
structure Question where
  id : ℤ
  question : String
  target_area : String
  category : Category
  rubric_focus : String
  follow_up_hint : Option String
  deriving DecidableEq

/-- `ScoreDetail` (structs.py).  Pydantic additionally validates
`0 ≤ score ≤ 5` at parse time; no claim below depends on the bounds. -/
structure ScoreDetail where
  score : ℤ
  evidence : String
  reasoning : String
  deriving DecidableEq

/-- `RubricScores` (structs.py): exactly four dimensions. -/
structure RubricScores where
  relevance : ScoreDetail
  depth : ScoreDetail
  competency : ScoreDetail
  communication : ScoreDetail
  deriving DecidableEq

/-- `AnswerScore` (structs.py).  Note: `average_score` is an ordinary
required field filled by the language model; no validator or computation
ties it to the four dimension scores. -/
structure AnswerScore where
  question_id : ℤ
  question_text : String
  answer_text : String
  chain_of_thought : String
  scores : RubricScores
  average_score : ℚ
  needs_follow_up : Bool
  follow_up_reason : Option String
  deriving DecidableEq

/-- `Recommendation.recommendation` literal values (structs.py). -/
inductive Verdict where
  | recommend | consider | doNotRecommend
  deriving DecidableEq

/-- `Recommendation` (structs.py). -/
structure Recommendation where
  recommendation : Verdict
  summary : String
  strengths : List String
  areas_for_development : List String
  hiring_confidence : ℚ
  deriving DecidableEq

/-- `EyeContactMetric` (structs.py). -/
structure EyeContactMetric where
  timestamp : ℚ
  gaze_on_screen : Bool
  confidence : ℚ
  deriving DecidableEq

/-- `InterviewSession.status` literal values (structs.py). -/
inductive Status where
  | idle | setup | ready | interviewing | completed | error
  deriving DecidableEq

/-- `InterviewSession` (structs.py).  Fields never read or written by the
embedded core operations (`created_at`, `conversation_history`, `timings`,
`models_used` — the conversation log and timings are written only by the
HTTP layer, which is outside the specified core) are omitted. -/
structure InterviewSession where
  id : String
  status : Status
  cv_text : String
  jd_text : String
  cv_analysis : Option CVAnalysis
  jd_analysis : Option JDAnalysis
  gap_analysis : Option GapAnalysis
  questions : List Question
  current_question_index : Nat
  scores : List AnswerScore
  followed_up_questions : List ℤ
  eye_contact_logs : List EyeContactMetric
  deriving DecidableEq

/-- A freshly created session (`InterviewSession()` defaults,
`SessionManager.create_session`). -/
def newSession (id : String) : InterviewSession :=
  { id := id
    status := Status.idle
    cv_text := ""
    jd_text := ""
    cv_analysis := none
    jd_analysis := none
    gap_analysis := none
    questions := []
    current_question_index := 0
    scores := []
    followed_up_questions := []
    eye_contact_logs := [] }

/-- The five-key `rubric_avg` dictionary built by
`generate_final_report` (orchestrator.py, lines 277–286). -/
structure RubricAvg where
  relevance : ℚ
  depth : ℚ
  competency : ℚ
  communication : ℚ
  overall : ℚ
  deriving DecidableEq

/-- `FinalReport` (structs.py).  `generated_at`, `transcript`,
`response_latencies` and `model_info` are environment/HTTP-layer data and
are omitted; `interview_duration` is the constant `"N/A"` in the source. -/
structure FinalReport where
  session_id : String
  candidate : CVAnalysis
  job : JDAnalysis
  gap_analysis : GapAnalysis
  interview_duration : Option String
  total_questions : Nat
  questions_answered : Nat
  rubric_scores : RubricAvg
  per_question_scores : List AnswerScore
  recommendation : Recommendation
  deriving DecidableEq

/-! ## Rounding (Python `round(x, 2)`)

Python's built-in `round` uses round-half-to-even.  The quantities rounded
by the orchestrator are rationals (sums of small integers divided by a
count), modelled exactly over `ℚ`. -/

/-- Round-half-to-even to the nearest integer. -/
def roundHalfEven (q : ℚ) : ℤ :=
  let f : ℤ := ⌊q⌋
  let r : ℚ := q - f
  if r < 1/2 then f
  else if 1/2 < r then f + 1
  else if f % 2 = 0 then f else f + 1

/-- Python `round(q, 2)`. -/
def round2 (q : ℚ) : ℚ := (roundHalfEven (100 * q) : ℚ) / 100

/-- The mean of the four rubric dimension scores of a `RubricScores`
value (the quantity the spec asserts `average_score` equals, after
rounding). -/
def meanScore (r : RubricScores) : ℚ :=
  ((r.relevance.score : ℚ) + r.depth.score + r.competency.score
    + r.communication.score) / 4

/-! ## Orchestrator operations (`nexus_core/orchestrator.py`)

Each method takes the session value directly (the Python methods fetch it
from `SessionManager` by id; a missing session raises `ValueError`, which
is outside every claim below) plus one explicit argument per gateway call
the method makes, carrying that call's outcome. -/

/-- `InterviewOrchestrator.get_next_question` (orchestrator.py 166–181).
Returns the possibly-updated session and the value the coroutine returns
(`none` models Python `None`). -/
def get_next_question (session : InterviewSession) :
    InterviewSession × Option String :=
  if h : session.current_question_index < session.questions.length then
    (session, some session.questions[session.current_question_index].question)
  else
    ({ session with status := Status.completed }, none)

/-- The tail of `process_answer` from `# 3. Move to Next Question`
(orchestrator.py 252–262): increment the cursor, fetch the next question,
and return either its text or the closing utterance.  Python's truthiness
test `if next_q_text:` treats an empty question string like `None`. -/
def move_to_next_question (session : InterviewSession) :
    InterviewSession × String × Bool :=
  let session := { session with
    current_question_index := session.current_question_index + 1 }
  match get_next_question session with
  | (session, some t) =>
      if t = "" then (session, "Thank you for your time. The interview is now complete.", true)
      else (session, t, false)
  | (session, none) =>
      (session, "Thank you for your time. The interview is now complete.", true)

/-- The hydration step of `process_answer` (orchestrator.py 224–227):
fields not filled by the language model are overwritten from the current
question and transcript. -/
def hydrate (raw : AnswerScore) (q : Question) (transcript : String) : AnswerScore :=
  { raw with
    question_id := q.id
    question_text := q.question
    answer_text := transcript }

/-- `InterviewOrchestrator.process_answer` (orchestrator.py 184–262).

`score_result` is the outcome of the `generate_structured(_, _,
AnswerScore)` call and `follow_up_result` that of the
`generate_text` call that synthesizes the follow-up; `none` models the
call raising.  Both calls sit inside one `try: ... except Exception:
pass` block, so a failure of either falls through to
`move_to_next_question`.  Accessing `questions[current_question_index]`
out of range raises `IndexError`, modelled by `Except.error`. -/
def process_answer (session : InterviewSession) (transcript : String)
    (eye_metrics : List EyeContactMetric)
    (score_result : Option AnswerScore) (follow_up_result : Option String) :
    Except String (InterviewSession × String × Bool) :=
  if session.status = Status.completed then
    Except.ok (session, "Interview is complete. Thank you.", true)
  else
    let session := { session with
      eye_contact_logs := session.eye_contact_logs ++ eye_metrics }
    if h : session.current_question_index < session.questions.length then
      let current_q := session.questions[session.current_question_index]
      match score_result with
      | some raw =>
          let score_data := hydrate raw current_q transcript
          let session := { session with scores := session.scores ++ [score_data] }
          if score_data.average_score < 3 ∧ score_data.needs_follow_up = true ∧
              current_q.id ∉ session.followed_up_questions then
            let session := { session with
              followed_up_questions := session.followed_up_questions ++ [current_q.id] }
            match follow_up_result with
            | some follow_up_q => Except.ok (session, follow_up_q, false)
            | none => Except.ok (move_to_next_question session)
          else
            Except.ok (move_to_next_question session)
      | none => Except.ok (move_to_next_question session)
    else
      Except.error "IndexError: list index out of range"

/-- `InterviewOrchestrator.analyze_candidate` (orchestrator.py 82–164).

The four gateway outcomes are, in call order: CV parse, JD parse
(`asyncio.gather`; modelled with the CV exception propagating first when
both fail — both belong to the same pipeline stage, so no claim depends
on the choice), gap analysis, question generation.  The returned session
reflects every mutation persisted before a failure; the `Except` carries
the `RuntimeError` message raised to the caller. -/
def analyze_candidate (session : InterviewSession) (cv_text jd_text : String)
    (cv_result : Except String CVAnalysis) (jd_result : Except String JDAnalysis)
    (gap_result : Except String GapAnalysis)
    (q_result : Except String (List Question)) :
    InterviewSession × Except String Unit :=
  let session := { session with
    cv_text := cv_text, jd_text := jd_text, status := Status.setup }
  match cv_result, jd_result with
  | Except.ok cv_data, Except.ok jd_data =>
      let session := { session with
        cv_analysis := some cv_data, jd_analysis := some jd_data }
      match gap_result with
      | Except.ok gap_data =>
          let session := { session with gap_analysis := some gap_data }
          match q_result with
          | Except.ok qs =>
              ({ session with questions := qs, status := Status.ready },
                Except.ok ())
          | Except.error e =>
              (session, Except.error ("Failed to generate questions: " ++ e))
      | Except.error e =>
          (session, Except.error ("Failed to analyze gaps: " ++ e))
  | Except.error e, _ =>
      (session, Except.error ("Failed to analyze documents: " ++ e))
  | _, Except.error e =>
      (session, Except.error ("Failed to analyze documents: " ++ e))

/-- `InterviewOrchestrator.generate_final_report` (orchestrator.py
264–315).  `rec_result` is the outcome of the `generate_structured(_, _,
Recommendation)` call.  Building the recommendation context reads
`session.cv_analysis.name` and `session.jd_analysis.title`
(`AttributeError` when absent), and the `FinalReport` constructor
requires a `GapAnalysis` (pydantic `ValidationError` when absent). -/
def generate_final_report (session : InterviewSession)
    (rec_result : Except String Recommendation) : Except String FinalReport :=
  let scores := session.scores
  let rubric_avg : RubricAvg :=
    if scores.length ≠ 0 then
      { relevance :=
          round2 ((scores.map (fun s => (s.scores.relevance.score : ℚ))).sum / scores.length)
        depth :=
          round2 ((scores.map (fun s => (s.scores.depth.score : ℚ))).sum / scores.length)
        competency :=
          round2 ((scores.map (fun s => (s.scores.competency.score : ℚ))).sum / scores.length)
        communication :=
          round2 ((scores.map (fun s => (s.scores.communication.score : ℚ))).sum / scores.length)
        overall :=
          round2 ((scores.map (fun s => s.average_score)).sum / scores.length) }
    else
      { relevance := 0, depth := 0, competency := 0, communication := 0, overall := 0 }
  match session.cv_analysis with
  | none => Except.error "AttributeError: NoneType object has no attribute name"
  | some cv =>
  match session.jd_analysis with
  | none => Except.error "AttributeError: NoneType object has no attribute title"
  | some jd =>
  match rec_result with
  | Except.error e => Except.error e
  | Except.ok rec =>
  match session.gap_analysis with
  | none => Except.error "ValidationError: gap_analysis may not be None"
  | some gap =>
      Except.ok
        { session_id := session.id
          candidate := cv
          job := jd
          gap_analysis := gap
          interview_duration := some "N/A"
          total_questions := session.questions.length
          questions_answered := session.scores.length
          rubric_scores := rubric_avg
          per_question_scores := session.scores
          recommendation := rec }

/-! ## Session reachability

One step is one core operation applied to a session (with arbitrary
inputs and arbitrary gateway outcomes); `Reachable` closes the freshly
created session under steps. -/

/-- One core operation on a session. -/
inductive SessionStep : InterviewSession → InterviewSession → Prop where
  | analyze (s : InterviewSession) (cv_text jd_text : String)
      (cv_result : Except String CVAnalysis) (jd_result : Except String JDAnalysis)
      (gap_result : Except String GapAnalysis) (q_result : Except String (List Question)) :
      SessionStep s (analyze_candidate s cv_text jd_text cv_result jd_result gap_result q_result).1
  | nextQuestion (s : InterviewSession) :
      SessionStep s (get_next_question s).1
  | answer (s : InterviewSession) (transcript : String)
      (eye_metrics : List EyeContactMetric)
      (score_result : Option AnswerScore) (follow_up_result : Option String)
      (s' : InterviewSession) (u : String) (b : Bool)
      (h : process_answer s transcript eye_metrics score_result follow_up_result
            = Except.ok (s', u, b)) :
      SessionStep s s'

/-- Sessions reachable from a fresh session by core operations. -/
def Reachable (s : InterviewSession) : Prop :=
  ∃ id, Relation.ReflTransGen SessionStep (newSession id) s

/-! ## Gateway (`nexus_core/llm_gateway.py`) -/

/-- `AsyncLLMGateway.primary_model` (llm_gateway.py 46). -/
def primary_model : String := "llama-3.3-70b-versatile"

/-- `AsyncLLMGateway.fallback_models` (llm_gateway.py 47–50). -/
def fallback_models : List String := ["qwen-2.5-32b", "llama-3.1-8b-instant"]

/-- `tenacity.stop_after_attempt(3)` (llm_gateway.py 89). -/
def RETRY_LIMIT : Nat := 3

/-- `tenacity.wait_exponential(multiplier=1, min=2, max=10)`
(llm_gateway.py 90): the sleep inserted after failed attempt `n`
(1-based). -/
def backoffWait (n : Nat) : ℚ := max 2 (min ((2 : ℚ) ^ (n - 1)) 10)

/-- Outcome oracle for `_call_api_raw`: for a model name and a 0-based
attempt index, `some t` is a provider response and `none` a raised
provider exception (any exception is retryable:
`retry_if_exception_type(Exception)`, llm_gateway.py 91). -/
def RespondOracle := String → Nat → Option String

/-- A model's three retry attempts all failed. -/
def exhaustedModel (respond : RespondOracle) (m : String) : Prop :=
  ∀ a < RETRY_LIMIT, respond m a = none

instance (respond : RespondOracle) (m : String) :
    Decidable (exhaustedModel respond m) :=
  Nat.decidableBallLT _ _

/-- `_call_api_raw` under its `tenacity` decorator (llm_gateway.py
88–112): up to three attempts against one model, first success wins,
`none` when all three raise (tenacity re-raises after the third). -/
def call_api_raw (respond : RespondOracle) (model : String) : Option String :=
  match respond model 0 with
  | some t => some t
  | none =>
    match respond model 1 with
    | some t => some t
    | none => respond model 2

/-- The fallback loop of `generate_text` (llm_gateway.py 127–134):
try each fallback model to exhaustion, then `RuntimeError`. -/
def fallback_cascade (respond : RespondOracle) : List String → Except String String
  | [] => Except.error "All models failed."
  | m :: rest =>
    match call_api_raw respond m with
    | some t => Except.ok t
    | none => fallback_cascade respond rest

/-- `AsyncLLMGateway.generate_text` (llm_gateway.py 114–134): primary
model first, then the fallback cascade. -/
def generate_text (respond : RespondOracle) : Except String String :=
  match call_api_raw respond primary_model with
  | some t => Except.ok t
  | none => fallback_cascade respond fallback_models

/-! ### Credential rotation (`_get_client` and the 429 handler) -/

/-- The rotation state of the gateway: `clients` list length and
`current_client_idx` (llm_gateway.py 42–43). -/
structure GatewayState where
  numKeys : Nat
  current_client_idx : Nat
  deriving DecidableEq

/-- `AsyncLLMGateway._get_client` (llm_gateway.py 81–86): return the
credential at the pointer, then advance the pointer round-robin. -/
def get_client (s : GatewayState) : Nat × GatewayState :=
  (s.current_client_idx,
    { s with current_client_idx := (s.current_client_idx + 1) % s.numKeys })

/-- The body of one `_call_api_raw` attempt (llm_gateway.py 93–112):
acquire a credential, perform the provider call, and on a rate-limit
error ("429" in the message) advance the pointer once more before
re-raising.  `respond` maps the acquired credential index to the
provider outcome; `Sum.inr true` is a rate-limited failure, `Sum.inr
false` any other failure.  Returns (new state, response if any,
credential used). -/
def call_api_attempt (s : GatewayState) (respond : Nat → String ⊕ Bool) :
    GatewayState × Option String × Nat :=
  let (client, s) := get_client s
  match respond client with
  | Sum.inl t => (s, some t, client)
  | Sum.inr isRateLimit =>
      let s := if isRateLimit then
          { s with current_client_idx := (s.current_client_idx + 1) % s.numKeys }
        else s
      (s, none, client)

/-! ## Concrete fixtures

Small concrete values used by the counterexample theorems and by the
witnesses of the hypothesis-bearing theorems below.  They mirror the
shapes the unit test `tests/test_async_flow.py` builds. -/

/-- A first question with id 1. -/
def q1 : Question := ⟨1, "Q1", "A", Category.technical, "F", some "H"⟩

/-- A second question with id 2. -/
def q2 : Question := ⟨2, "Q2", "B", Category.technical, "F", some "H"⟩

/-- A uniformly weak rubric (all four dimensions scored 2). -/
def rubricLow : RubricScores :=
  ⟨⟨2, "e", "r"⟩, ⟨2, "e", "r"⟩, ⟨2, "e", "r"⟩, ⟨2, "e", "r"⟩⟩

/-- A weak answer score: average 2 (below the 3.0 threshold) with the
follow-up flag set, as the scoring model would emit it (identifying
fields still unhydrated). -/
def lowScore : AnswerScore :=
  ⟨0, "", "", "", rubricLow, 2, true, some "weak"⟩

/-- The rubric of the spec's worked example: dimension scores 5, 4, 5, 4. -/
def rubric5454 : RubricScores :=
  ⟨⟨5, "e", "r"⟩, ⟨4, "e", "r"⟩, ⟨5, "e", "r"⟩, ⟨4, "e", "r"⟩⟩

/-- A score whose model-supplied `average_score` (1) disagrees with the
mean of its dimension scores (4.5).  Pydantic validation accepts it:
nothing ties the two fields together. -/
def badScore : AnswerScore :=
  ⟨0, "", "", "", rubric5454, 1, false, none⟩

/-- A parsed CV. -/
def cv0 : CVAnalysis := ⟨some "Cand", ["Python"], 5, [], [], [], [], ""⟩

/-- A parsed JD. -/
def jd0 : JDAnalysis := ⟨"SE", none, ["Python"], [], "", "", [], [], ""⟩

/-- A gap analysis. -/
def gap0 : GapAnalysis := ⟨90, ["Python"], [], "None", true, [], [], []⟩

/-- A recommendation. -/
def rec0 : Recommendation := ⟨Verdict.recommend, "s", [], [], 80⟩

/-- A ready two-question session, reached from a fresh session by one
successful `analyze_candidate`. -/
def s1 : InterviewSession :=
  (analyze_candidate (newSession "w") "cv" "jd" (Except.ok cv0) (Except.ok jd0)
    (Except.ok gap0) (Except.ok [q1, q2])).1

/-- `s1` after a weak answer to `q1` triggered a follow-up. -/
def s2t : InterviewSession :=
  { s1 with scores := [hydrate lowScore q1 "a"], followed_up_questions := [1] }

/-- `s2t` after a second weak answer to `q1`: the id is already in the
followed-up set, so the cursor advanced. -/
def s3t : InterviewSession :=
  { s2t with
    current_question_index := 1
    scores := s2t.scores ++ [hydrate lowScore q1 "b"] }

/-- `s3t` after a weak answer to `q2` triggered a second follow-up. -/
def s4t : InterviewSession :=
  { s3t with
    scores := s3t.scores ++ [hydrate lowScore q2 "c"]
    followed_up_questions := [1, 2] }

/-- `s4t` after `analyze_candidate` ran again and the model generated a
single question: the followed-up ledger (2 entries) is not cleared and
now exceeds the question count (1). -/
def s5t : InterviewSession :=
  (analyze_candidate s4t "cv2" "jd2" (Except.ok cv0) (Except.ok jd0)
    (Except.ok gap0) (Except.ok [q1])).1

/-- `s1` after a turn scored by `badScore` (no follow-up wanted): the
hydrated score is appended and the cursor advances. -/
def sC3 : InterviewSession :=
  { s1 with
    current_question_index := 1
    scores := [hydrate badScore q1 "ans"] }

/-- A uniform rubric (all four dimensions scored 4). -/
def rubric4444 : RubricScores :=
  ⟨⟨4, "e", "r"⟩, ⟨4, "e", "r"⟩, ⟨4, "e", "r"⟩, ⟨4, "e", "r"⟩⟩

/-- A conformant model score: dimensions 4, 4, 4, 4 with
`average_score` 4, as the schema instructs the model to produce. -/
def goodScore : AnswerScore :=
  ⟨0, "", "", "", rubric4444, 4, false, none⟩

/-- A fresh session driven straight to `completed`: `get_next_question`
with an empty question list completes the interview. -/
def sDone : InterviewSession := (get_next_question (newSession "w2")).1

/-- `sDone` after `analyze_candidate` was re-run (and failed at the first
stage): the status is reset to `setup` — backwards from `completed`. -/
def sBack : InterviewSession :=
  (analyze_candidate sDone "cv" "jd" (Except.error "boom") (Except.error "boom")
    (Except.error "boom") (Except.error "boom")).1

end Nexus

namespace Nexus

/-! ## Helper lemmas -/

/-- Full characterization of `move_to_next_question`. -/
theorem move_to_next_question_spec (s : InterviewSession) :
    (∃ h : s.current_question_index + 1 < s.questions.length,
      s.questions[s.current_question_index + 1].question ≠ "" ∧
      move_to_next_question s =
        ({ s with current_question_index := s.current_question_index + 1 },
          s.questions[s.current_question_index + 1].question, false)) ∨
    (∃ h : s.current_question_index + 1 < s.questions.length,
      s.questions[s.current_question_index + 1].question = "" ∧
      move_to_next_question s =
        ({ s with current_question_index := s.current_question_index + 1 },
          "Thank you for your time. The interview is now complete.", true)) ∨
    (s.questions.length ≤ s.current_question_index + 1 ∧
      move_to_next_question s =
        ({ s with current_question_index := s.current_question_index + 1, status := Status.completed },
          "Thank you for your time. The interview is now complete.", true)) := by
  simp only [move_to_next_question, get_next_question]
  by_cases h : s.current_question_index + 1 < s.questions.length
  · rw [dif_pos h]
    by_cases ht : s.questions[s.current_question_index + 1].question = ""
    · refine Or.inr (Or.inl ⟨h, ht, ?_⟩)
      simp [ht]
    · refine Or.inl ⟨h, ht, ?_⟩
      simp [ht]
  · refine Or.inr (Or.inr ⟨by omega, ?_⟩)
    rw [dif_neg h]

theorem mtn_cursor (s : InterviewSession) :
    (move_to_next_question s).1.current_question_index = s.current_question_index + 1 := by
  rcases move_to_next_question_spec s with ⟨h, ht, he⟩ | ⟨h, ht, he⟩ | ⟨h, he⟩ <;> rw [he]

theorem mtn_scores (s : InterviewSession) :
    (move_to_next_question s).1.scores = s.scores := by
  rcases move_to_next_question_spec s with ⟨h, ht, he⟩ | ⟨h, ht, he⟩ | ⟨h, he⟩ <;> rw [he]

theorem mtn_followed (s : InterviewSession) :
    (move_to_next_question s).1.followed_up_questions = s.followed_up_questions := by
  rcases move_to_next_question_spec s with ⟨h, ht, he⟩ | ⟨h, ht, he⟩ | ⟨h, he⟩ <;> rw [he]

theorem mtn_questions (s : InterviewSession) :
    (move_to_next_question s).1.questions = s.questions := by
  rcases move_to_next_question_spec s with ⟨h, ht, he⟩ | ⟨h, ht, he⟩ | ⟨h, he⟩ <;> rw [he]

theorem mtn_status (s : InterviewSession) :
    (move_to_next_question s).1.status = s.status ∨
    (move_to_next_question s).1.status = Status.completed := by
  rcases move_to_next_question_spec s with ⟨h, ht, he⟩ | ⟨h, ht, he⟩ | ⟨h, he⟩ <;> rw [he]
  · left; rfl
  · left; rfl
  · right; rfl

/-- The branch of `process_answer` taken when scoring succeeds, the
follow-up condition holds, and follow-up synthesis succeeds. -/
theorem process_answer_followup (s : InterviewSession) (t : String)
    (ms : List EyeContactMetric) (raw : AnswerScore) (fq : String)
    (h1 : ¬ s.status = Status.completed)
    (h2 : s.current_question_index < s.questions.length)
    (hc : (hydrate raw s.questions[s.current_question_index] t).average_score < 3 ∧
      (hydrate raw s.questions[s.current_question_index] t).needs_follow_up = true ∧
      s.questions[s.current_question_index].id ∉ s.followed_up_questions) :
    process_answer s t ms (some raw) (some fq) =
      Except.ok
        ({ s with eye_contact_logs := s.eye_contact_logs ++ ms, scores := s.scores ++ [hydrate raw s.questions[s.current_question_index] t], followed_up_questions := s.followed_up_questions ++ [s.questions[s.current_question_index].id] },
          fq, false) := by
  simp only [process_answer]
  rw [if_neg h1, dif_pos h2]
  simp only [if_pos hc]

/-- The branch of `process_answer` taken when scoring succeeds and the
follow-up condition holds, but follow-up synthesis raises: the exception
is swallowed and the turn falls through to the cursor advance. -/
theorem process_answer_followup_fail (s : InterviewSession) (t : String)
    (ms : List EyeContactMetric) (raw : AnswerScore)
    (h1 : ¬ s.status = Status.completed)
    (h2 : s.current_question_index < s.questions.length)
    (hc : (hydrate raw s.questions[s.current_question_index] t).average_score < 3 ∧
      (hydrate raw s.questions[s.current_question_index] t).needs_follow_up = true ∧
      s.questions[s.current_question_index].id ∉ s.followed_up_questions) :
    process_answer s t ms (some raw) none =
      Except.ok (move_to_next_question
        { s with eye_contact_logs := s.eye_contact_logs ++ ms, scores := s.scores ++ [hydrate raw s.questions[s.current_question_index] t], followed_up_questions := s.followed_up_questions ++ [s.questions[s.current_question_index].id] }) := by
  simp only [process_answer]
  rw [if_neg h1, dif_pos h2]
  simp only [if_pos hc]

/-- The branch of `process_answer` taken when scoring succeeds but the
follow-up condition fails: the score is appended and the cursor
advances. -/
theorem process_answer_no_followup (s : InterviewSession) (t : String)
    (ms : List EyeContactMetric) (raw : AnswerScore) (fuR : Option String)
    (h1 : ¬ s.status = Status.completed)
    (h2 : s.current_question_index < s.questions.length)
    (hc : ¬((hydrate raw s.questions[s.current_question_index] t).average_score < 3 ∧
      (hydrate raw s.questions[s.current_question_index] t).needs_follow_up = true ∧
      s.questions[s.current_question_index].id ∉ s.followed_up_questions)) :
    process_answer s t ms (some raw) fuR =
      Except.ok (move_to_next_question
        { s with eye_contact_logs := s.eye_contact_logs ++ ms, scores := s.scores ++ [hydrate raw s.questions[s.current_question_index] t] }) := by
  simp only [process_answer]
  rw [if_neg h1, dif_pos h2]
  simp only [if_neg hc]

/-- The branch of `process_answer` taken when the scoring call raises:
nothing is appended and the cursor advances. -/
theorem process_answer_score_fail (s : InterviewSession) (t : String)
    (ms : List EyeContactMetric) (fuR : Option String)
    (h1 : ¬ s.status = Status.completed)
    (h2 : s.current_question_index < s.questions.length) :
    process_answer s t ms none fuR =
      Except.ok (move_to_next_question
        { s with eye_contact_logs := s.eye_contact_logs ++ ms }) := by
  simp only [process_answer]
  rw [if_neg h1, dif_pos h2]

/-- `process_answer` at an out-of-range cursor raises `IndexError`. -/
theorem process_answer_index_error (s : InterviewSession) (t : String)
    (ms : List EyeContactMetric) (scR : Option AnswerScore) (fuR : Option String)
    (h1 : ¬ s.status = Status.completed)
    (h2 : ¬ s.current_question_index < s.questions.length) :
    process_answer s t ms scR fuR = Except.error "IndexError: list index out of range" := by
  simp only [process_answer]
  rw [if_neg h1, dif_neg h2]

/-- `process_answer` on a completed session returns immediately. -/
theorem process_answer_completed (s : InterviewSession) (t : String)
    (ms : List EyeContactMetric) (scR : Option AnswerScore) (fuR : Option String)
    (h1 : s.status = Status.completed) :
    process_answer s t ms scR fuR =
      Except.ok (s, "Interview is complete. Thank you.", true) := by
  simp only [process_answer]
  rw [if_pos h1]

/-- Any successful turn leaves the followed-up ledger unchanged or
appends one id not already present. -/
theorem process_answer_ok_followed (s : InterviewSession) (t : String)
    (ms : List EyeContactMetric) (scR : Option AnswerScore) (fuR : Option String)
    (s' : InterviewSession) (u : String) (b : Bool)
    (h : process_answer s t ms scR fuR = Except.ok (s', u, b)) :
    s'.followed_up_questions = s.followed_up_questions ∨
    ∃ i, i ∉ s.followed_up_questions ∧
      s'.followed_up_questions = s.followed_up_questions ++ [i] := by
  by_cases h1 : s.status = Status.completed
  · rw [process_answer_completed s t ms scR fuR h1] at h
    cases h
    exact Or.inl rfl
  by_cases h2 : s.current_question_index < s.questions.length
  · cases scR with
    | none =>
        rw [process_answer_score_fail s t ms fuR h1 h2] at h
        have hs' : s' = (move_to_next_question
            { s with eye_contact_logs := s.eye_contact_logs ++ ms }).1 := by
          cases h6 : move_to_next_question
            { s with eye_contact_logs := s.eye_contact_logs ++ ms }
          rw [h6] at h
          cases h
          rfl
        rw [hs', mtn_followed]
        exact Or.inl rfl
    | some raw =>
        by_cases hc : (hydrate raw s.questions[s.current_question_index] t).average_score < 3 ∧
          (hydrate raw s.questions[s.current_question_index] t).needs_follow_up = true ∧
          s.questions[s.current_question_index].id ∉ s.followed_up_questions
        · cases fuR with
          | some fq =>
              rw [process_answer_followup s t ms raw fq h1 h2 hc] at h
              cases h
              exact Or.inr ⟨_, hc.2.2, rfl⟩
          | none =>
              rw [process_answer_followup_fail s t ms raw h1 h2 hc] at h
              have hs' : s' = (move_to_next_question
                  { s with eye_contact_logs := s.eye_contact_logs ++ ms, scores := s.scores ++ [hydrate raw s.questions[s.current_question_index] t], followed_up_questions := s.followed_up_questions ++ [s.questions[s.current_question_index].id] }).1 := by
                cases h6 : move_to_next_question
                  { s with eye_contact_logs := s.eye_contact_logs ++ ms, scores := s.scores ++ [hydrate raw s.questions[s.current_question_index] t], followed_up_questions := s.followed_up_questions ++ [s.questions[s.current_question_index].id] }
                rw [h6] at h
                cases h
                rfl
              rw [hs', mtn_followed]
              exact Or.inr ⟨_, hc.2.2, rfl⟩
        · rw [process_answer_no_followup s t ms raw fuR h1 h2 hc] at h
          have hs' : s' = (move_to_next_question
              { s with eye_contact_logs := s.eye_contact_logs ++ ms, scores := s.scores ++ [hydrate raw s.questions[s.current_question_index] t] }).1 := by
            cases h6 : move_to_next_question
              { s with eye_contact_logs := s.eye_contact_logs ++ ms, scores := s.scores ++ [hydrate raw s.questions[s.current_question_index] t] }
            rw [h6] at h
            cases h
            rfl
          rw [hs', mtn_followed]
          exact Or.inl rfl
  · rw [process_answer_index_error s t ms scR fuR h1 h2] at h
    cases h

/-- Any successful turn leaves the status unchanged or completes the
interview. -/
theorem process_answer_ok_status (s : InterviewSession) (t : String)
    (ms : List EyeContactMetric) (scR : Option AnswerScore) (fuR : Option String)
    (s' : InterviewSession) (u : String) (b : Bool)
    (h : process_answer s t ms scR fuR = Except.ok (s', u, b)) :
    s'.status = s.status ∨ s'.status = Status.completed := by
  by_cases h1 : s.status = Status.completed
  · rw [process_answer_completed s t ms scR fuR h1] at h
    cases h
    exact Or.inl rfl
  by_cases h2 : s.current_question_index < s.questions.length
  · cases scR with
    | none =>
        rw [process_answer_score_fail s t ms fuR h1 h2] at h
        have hs' : s' = (move_to_next_question
            { s with eye_contact_logs := s.eye_contact_logs ++ ms }).1 := by
          cases h6 : move_to_next_question
            { s with eye_contact_logs := s.eye_contact_logs ++ ms }
          rw [h6] at h
          cases h
          rfl
        rw [hs']
        exact mtn_status _
    | some raw =>
        by_cases hc : (hydrate raw s.questions[s.current_question_index] t).average_score < 3 ∧
          (hydrate raw s.questions[s.current_question_index] t).needs_follow_up = true ∧
          s.questions[s.current_question_index].id ∉ s.followed_up_questions
        · cases fuR with
          | some fq =>
              rw [process_answer_followup s t ms raw fq h1 h2 hc] at h
              cases h
              exact Or.inl rfl
          | none =>
              rw [process_answer_followup_fail s t ms raw h1 h2 hc] at h
              have hs' : s' = (move_to_next_question
                  { s with eye_contact_logs := s.eye_contact_logs ++ ms, scores := s.scores ++ [hydrate raw s.questions[s.current_question_index] t], followed_up_questions := s.followed_up_questions ++ [s.questions[s.current_question_index].id] }).1 := by
                cases h6 : move_to_next_question
                  { s with eye_contact_logs := s.eye_contact_logs ++ ms, scores := s.scores ++ [hydrate raw s.questions[s.current_question_index] t], followed_up_questions := s.followed_up_questions ++ [s.questions[s.current_question_index].id] }
                rw [h6] at h
                cases h
                rfl
              rw [hs']
              exact mtn_status _
        · rw [process_answer_no_followup s t ms raw fuR h1 h2 hc] at h
          have hs' : s' = (move_to_next_question
              { s with eye_contact_logs := s.eye_contact_logs ++ ms, scores := s.scores ++ [hydrate raw s.questions[s.current_question_index] t] }).1 := by
            cases h6 : move_to_next_question
              { s with eye_contact_logs := s.eye_contact_logs ++ ms, scores := s.scores ++ [hydrate raw s.questions[s.current_question_index] t] }
            rw [h6] at h
            cases h
            rfl
          rw [hs']
          exact mtn_status _
  · rw [process_answer_index_error s t ms scR fuR h1 h2] at h
    cases h

/-- Any successful turn either leaves the score list unchanged (completed
session, or scoring raised) or appends exactly the hydrated model
score. -/
theorem process_answer_ok_scores (s : InterviewSession) (t : String)
    (ms : List EyeContactMetric) (scR : Option AnswerScore) (fuR : Option String)
    (s' : InterviewSession) (u : String) (b : Bool)
    (h : process_answer s t ms scR fuR = Except.ok (s', u, b)) :
    (s.status = Status.completed ∧ s'.scores = s.scores) ∨
    (scR = none ∧ s'.scores = s.scores) ∨
    (∃ raw, scR = some raw ∧
      ∃ h2 : s.current_question_index < s.questions.length,
        s'.scores = s.scores ++ [hydrate raw s.questions[s.current_question_index] t]) := by
  by_cases h1 : s.status = Status.completed
  · rw [process_answer_completed s t ms scR fuR h1] at h
    cases h
    exact Or.inl ⟨h1, rfl⟩
  by_cases h2 : s.current_question_index < s.questions.length
  · cases scR with
    | none =>
        rw [process_answer_score_fail s t ms fuR h1 h2] at h
        have hs' : s' = (move_to_next_question
            { s with eye_contact_logs := s.eye_contact_logs ++ ms }).1 := by
          cases h6 : move_to_next_question
            { s with eye_contact_logs := s.eye_contact_logs ++ ms }
          rw [h6] at h
          cases h
          rfl
        rw [hs', mtn_scores]
        exact Or.inr (Or.inl ⟨rfl, rfl⟩)
    | some raw =>
        refine Or.inr (Or.inr ⟨raw, rfl, h2, ?_⟩)
        by_cases hc : (hydrate raw s.questions[s.current_question_index] t).average_score < 3 ∧
          (hydrate raw s.questions[s.current_question_index] t).needs_follow_up = true ∧
          s.questions[s.current_question_index].id ∉ s.followed_up_questions
        · cases fuR with
          | some fq =>
              rw [process_answer_followup s t ms raw fq h1 h2 hc] at h
              cases h
              rfl
          | none =>
              rw [process_answer_followup_fail s t ms raw h1 h2 hc] at h
              have hs' : s' = (move_to_next_question
                  { s with eye_contact_logs := s.eye_contact_logs ++ ms, scores := s.scores ++ [hydrate raw s.questions[s.current_question_index] t], followed_up_questions := s.followed_up_questions ++ [s.questions[s.current_question_index].id] }).1 := by
                cases h6 : move_to_next_question
                  { s with eye_contact_logs := s.eye_contact_logs ++ ms, scores := s.scores ++ [hydrate raw s.questions[s.current_question_index] t], followed_up_questions := s.followed_up_questions ++ [s.questions[s.current_question_index].id] }
                rw [h6] at h
                cases h
                rfl
              rw [hs', mtn_scores]
        · rw [process_answer_no_followup s t ms raw fuR h1 h2 hc] at h
          have hs' : s' = (move_to_next_question
              { s with eye_contact_logs := s.eye_contact_logs ++ ms, scores := s.scores ++ [hydrate raw s.questions[s.current_question_index] t] }).1 := by
            cases h6 : move_to_next_question
              { s with eye_contact_logs := s.eye_contact_logs ++ ms, scores := s.scores ++ [hydrate raw s.questions[s.current_question_index] t] }
            rw [h6] at h
            cases h
            rfl
          rw [hs', mtn_scores]
  · rw [process_answer_index_error s t ms scR fuR h1 h2] at h
    cases h

/-- `analyze_candidate` never touches the followed-up ledger. -/
theorem analyze_followed (s : InterviewSession) (ct jt : String)
    (cvR : Except String CVAnalysis) (jdR : Except String JDAnalysis)
    (gapR : Except String GapAnalysis) (qR : Except String (List Question)) :
    (analyze_candidate s ct jt cvR jdR gapR qR).1.followed_up_questions
      = s.followed_up_questions := by
  simp only [analyze_candidate]
  rcases cvR with e | cv <;> rcases jdR with e2 | jd <;>
    rcases gapR with e3 | gap <;> rcases qR with e4 | qs <;> rfl

/-- `analyze_candidate` never touches the score list. -/
theorem analyze_scores (s : InterviewSession) (ct jt : String)
    (cvR : Except String CVAnalysis) (jdR : Except String JDAnalysis)
    (gapR : Except String GapAnalysis) (qR : Except String (List Question)) :
    (analyze_candidate s ct jt cvR jdR gapR qR).1.scores = s.scores := by
  simp only [analyze_candidate]
  rcases cvR with e | cv <;> rcases jdR with e2 | jd <;>
    rcases gapR with e3 | gap <;> rcases qR with e4 | qs <;> rfl

/-- `analyze_candidate` always leaves the status at `setup` (failure
anywhere) or `ready` (full success). -/
theorem analyze_status (s : InterviewSession) (ct jt : String)
    (cvR : Except String CVAnalysis) (jdR : Except String JDAnalysis)
    (gapR : Except String GapAnalysis) (qR : Except String (List Question)) :
    (analyze_candidate s ct jt cvR jdR gapR qR).1.status = Status.setup ∨
    (analyze_candidate s ct jt cvR jdR gapR qR).1.status = Status.ready := by
  simp only [analyze_candidate]
  rcases cvR with e | cv <;> rcases jdR with e2 | jd <;>
    rcases gapR with e3 | gap <;> rcases qR with e4 | qs <;>
    first
      | exact Or.inl rfl
      | exact Or.inr rfl

/-- `get_next_question` never touches the followed-up ledger. -/
theorem gnq_followed (s : InterviewSession) :
    (get_next_question s).1.followed_up_questions = s.followed_up_questions := by
  simp only [get_next_question]
  by_cases h : s.current_question_index < s.questions.length
  · rw [dif_pos h]
  · rw [dif_neg h]

/-- `get_next_question` never touches the score list. -/
theorem gnq_scores (s : InterviewSession) :
    (get_next_question s).1.scores = s.scores := by
  simp only [get_next_question]
  by_cases h : s.current_question_index < s.questions.length
  · rw [dif_pos h]
  · rw [dif_neg h]

/-- `get_next_question` leaves the status unchanged or completes. -/
theorem gnq_status (s : InterviewSession) :
    (get_next_question s).1.status = s.status ∨
    (get_next_question s).1.status = Status.completed := by
  simp only [get_next_question]
  by_cases h : s.current_question_index < s.questions.length
  · rw [dif_pos h]
    exact Or.inl rfl
  · rw [dif_neg h]
    exact Or.inr rfl

/-- Across any single core operation the followed-up ledger is unchanged
or gains exactly one id that was not yet present. -/
theorem sessionStep_followed (s s' : InterviewSession) (h : SessionStep s s') :
    s'.followed_up_questions = s.followed_up_questions ∨
    ∃ i, i ∉ s.followed_up_questions ∧
      s'.followed_up_questions = s.followed_up_questions ++ [i] := by
  cases h with
  | analyze ct jt cvR jdR gapR qR =>
      exact Or.inl (analyze_followed s ct jt cvR jdR gapR qR)
  | nextQuestion =>
      exact Or.inl (gnq_followed s)
  | answer t ms scR fuR s2 u b hpa =>
      exact process_answer_ok_followed _ _ _ _ _ _ _ _ hpa

/-- One core operation preserves ledger distinctness. -/
theorem sessionStep_nodup (s s' : InterviewSession) (h : SessionStep s s')
    (hn : s.followed_up_questions.Nodup) : s'.followed_up_questions.Nodup := by
  rcases sessionStep_followed s s' h with he | ⟨i, hi, he⟩ <;> rw [he]
  · exact hn
  · simpa [List.concat_eq_append] using hn.concat hi

/-- Every reachable session has a duplicate-free followed-up ledger. -/
theorem reachable_nodup (s : InterviewSession) (h : Reachable s) :
    s.followed_up_questions.Nodup := by
  obtain ⟨id, hr⟩ := h
  induction hr with
  | refl => simp [newSession]
  | tail hab hbc ih => exact sessionStep_nodup _ _ hbc ih

/-- `exhaustedModel` spelled out attempt by attempt. -/
theorem exhaustedModel_iff (respond : RespondOracle) (m : String) :
    exhaustedModel respond m ↔
      respond m 0 = none ∧ respond m 1 = none ∧ respond m 2 = none := by
  constructor
  · intro hp
    exact ⟨hp 0 (by norm_num [RETRY_LIMIT]), hp 1 (by norm_num [RETRY_LIMIT]),
      hp 2 (by norm_num [RETRY_LIMIT])⟩
  · rintro ⟨a0, a1, a2⟩ n hn
    simp only [RETRY_LIMIT] at hn
    interval_cases n <;> assumption

/-- The retried call fails exactly when all three attempts fail. -/
theorem call_api_raw_none_iff (respond : RespondOracle) (m : String) :
    call_api_raw respond m = none ↔ exhaustedModel respond m := by
  rw [exhaustedModel_iff]
  unfold call_api_raw
  cases h0 : respond m 0 <;> cases h1 : respond m 1 <;> cases h2 : respond m 2 <;>
    simp [h0, h1, h2]

/-- A successful retried call returns the response of the first
successful attempt, every earlier attempt having failed. -/
theorem call_api_raw_some (respond : RespondOracle) (m : String) (t : String)
    (h : call_api_raw respond m = some t) :
    ∃ a, a < RETRY_LIMIT ∧ respond m a = some t ∧
      ∀ b, b < a → respond m b = none := by
  unfold call_api_raw at h
  cases h0 : respond m 0 with
  | some t0 =>
      rw [h0] at h
      refine ⟨0, by norm_num [RETRY_LIMIT], ?_, fun b hb => absurd hb (by omega)⟩
      rw [h0]
      exact h
  | none =>
      rw [h0] at h
      cases h1 : respond m 1 with
      | some t1 =>
          rw [h1] at h
          refine ⟨1, by norm_num [RETRY_LIMIT], ?_, ?_⟩
          · rw [h1]
            exact h
          · intro b hb
            interval_cases b
            exact h0
      | none =>
          rw [h1] at h
          refine ⟨2, by norm_num [RETRY_LIMIT], h, ?_⟩
          intro b hb
          interval_cases b <;> assumption

/-- The fallback loop fails exactly when every listed model is
exhausted. -/
theorem fallback_cascade_error_iff (respond : RespondOracle) (ms : List String) :
    fallback_cascade respond ms = Except.error "All models failed." ↔
      ∀ m ∈ ms, exhaustedModel respond m := by
  induction ms with
  | nil => simp [fallback_cascade]
  | cons m rest ih =>
      simp only [fallback_cascade]
      cases hc : call_api_raw respond m with
      | some t =>
          simp only
          constructor
          · intro habs
            cases habs
          · intro hall
            have hnone := (call_api_raw_none_iff respond m).mpr
              (hall m (List.mem_cons_self m rest))
            rw [hc] at hnone
            cases hnone
      | none =>
          simp only
          rw [ih]
          constructor
          · intro hrest m2 hm2
            rcases List.mem_cons.mp hm2 with he | hm3
            · rw [he]
              exact (call_api_raw_none_iff respond m).mp hc
            · exact hrest m2 hm3
          · intro hall m2 hm2
            exact hall m2 (List.mem_cons_of_mem m hm2)

/-- The fallback loop has a single failure message. -/
theorem fallback_cascade_error_only (respond : RespondOracle) (ms : List String)
    (e : String) (h : fallback_cascade respond ms = Except.error e) :
    e = "All models failed." := by
  induction ms with
  | nil =>
      simp only [fallback_cascade] at h
      cases h
      rfl
  | cons m rest ih =>
      simp only [fallback_cascade] at h
      cases hc : call_api_raw respond m with
      | some t =>
          rw [hc] at h
          cases h
      | none =>
          rw [hc] at h
          exact ih h

/-- A successful fallback loop returns the response of the first model
with a successful attempt; every earlier model was exhausted, and every
earlier attempt of the successful model failed. -/
theorem fallback_cascade_ok (respond : RespondOracle) (ms : List String)
    (t : String) (h : fallback_cascade respond ms = Except.ok t) :
    ∃ pre m post, ms = pre ++ m :: post ∧
      (∀ m2 ∈ pre, exhaustedModel respond m2) ∧
      ∃ a, a < RETRY_LIMIT ∧ respond m a = some t ∧
        ∀ b, b < a → respond m b = none := by
  induction ms with
  | nil =>
      simp only [fallback_cascade] at h
      cases h
  | cons m rest ih =>
      simp only [fallback_cascade] at h
      cases hc : call_api_raw respond m with
      | some t0 =>
          rw [hc] at h
          cases h
          exact ⟨[], m, rest, rfl, by simp, call_api_raw_some respond m _ hc⟩
      | none =>
          rw [hc] at h
          obtain ⟨pre, m2, post, hsplit, hpre, hsucc⟩ := ih h
          refine ⟨m :: pre, m2, post, by simp [hsplit], ?_, hsucc⟩
          intro m3 hm3
          rcases List.mem_cons.mp hm3 with he | hm4
          · rw [he]
            exact (call_api_raw_none_iff respond m).mp hc
          · exact hpre m3 hm4

/-- `generate_text` is the fallback loop run on the primary model
followed by the fallback list. -/
theorem generate_text_eq_cascade (respond : RespondOracle) :
    generate_text respond =
      fallback_cascade respond (primary_model :: fallback_models) := by
  simp only [generate_text, fallback_cascade]

end Nexus

namespace Nexus

/-! ## Claims -/

/-- C1 counterexample: the claim's biconditional fails when the
follow-up synthesis gateway call raises.  On session `s1` (question `q1`
at the cursor, not yet followed up) the answer is successfully scored by
`lowScore` (average 2 < 3, `needs_follow_up` set), so all three trigger
conditions hold — yet because the follow-up `generate_text` call fails
(`none`), the swallowed exception falls through to the advance path: no
follow-up utterance is returned (the next question `"Q2"` is), and the
cursor advances, contradicting the claimed "if and only if" and "the
cursor is not advanced". -/
theorem C1_counterexample :
    (hydrate lowScore q1 "weak").average_score < 3 ∧
    (hydrate lowScore q1 "weak").needs_follow_up = true ∧
    q1.id ∉ s1.followed_up_questions ∧
    ∃ s2, process_answer s1 "weak" [] (some lowScore) none
        = Except.ok (s2, "Q2", false) ∧
      s2.current_question_index = s1.current_question_index + 1 ∧
      s2.followed_up_questions = [q1.id] := by
  refine ⟨by decide, rfl, by decide, ?_⟩
  exact ⟨_, rfl, rfl, rfl⟩

/-- C1 (amended): for a turn whose answer is successfully scored, a
follow-up utterance is returned iff the three conditions hold AND the
follow-up synthesis call succeeds; on a trigger with successful
synthesis the id is recorded and the cursor is unchanged; if the
conditions hold but synthesis fails, the id is still recorded and the
cursor advances; if the conditions fail, the cursor advances and the
ledger is untouched. -/
theorem C1_followup_decision (s : InterviewSession) (t : String)
    (ms : List EyeContactMetric) (raw : AnswerScore) (fuR : Option String)
    (h1 : ¬ s.status = Status.completed)
    (h2 : s.current_question_index < s.questions.length) :
    (((hydrate raw s.questions[s.current_question_index] t).average_score < 3 ∧
      (hydrate raw s.questions[s.current_question_index] t).needs_follow_up = true ∧
      s.questions[s.current_question_index].id ∉ s.followed_up_questions) →
      (∀ fq, fuR = some fq →
        ∃ s2, process_answer s t ms (some raw) fuR = Except.ok (s2, fq, false) ∧
          s2.current_question_index = s.current_question_index ∧
          s2.followed_up_questions =
            s.followed_up_questions ++ [s.questions[s.current_question_index].id] ∧
          s2.scores = s.scores ++ [hydrate raw s.questions[s.current_question_index] t]) ∧
      (fuR = none →
        ∃ s2 u b, process_answer s t ms (some raw) fuR = Except.ok (s2, u, b) ∧
          s2.current_question_index = s.current_question_index + 1 ∧
          s2.followed_up_questions =
            s.followed_up_questions ++ [s.questions[s.current_question_index].id])) ∧
    (¬((hydrate raw s.questions[s.current_question_index] t).average_score < 3 ∧
      (hydrate raw s.questions[s.current_question_index] t).needs_follow_up = true ∧
      s.questions[s.current_question_index].id ∉ s.followed_up_questions) →
      ∃ s2 u b, process_answer s t ms (some raw) fuR = Except.ok (s2, u, b) ∧
        s2.current_question_index = s.current_question_index + 1 ∧
        s2.followed_up_questions = s.followed_up_questions) := by
  constructor
  · intro hc
    constructor
    · intro fq hfq
      subst hfq
      rw [process_answer_followup s t ms raw fq h1 h2 hc]
      exact ⟨_, rfl, rfl, rfl, rfl⟩
    · intro hn
      subst hn
      rw [process_answer_followup_fail s t ms raw h1 h2 hc]
      rcases h6 : move_to_next_question
        { s with eye_contact_logs := s.eye_contact_logs ++ ms, scores := s.scores ++ [hydrate raw s.questions[s.current_question_index] t], followed_up_questions := s.followed_up_questions ++ [s.questions[s.current_question_index].id] }
        with ⟨s2, u, b⟩
      have hs2 : s2 = (move_to_next_question
          { s with eye_contact_logs := s.eye_contact_logs ++ ms, scores := s.scores ++ [hydrate raw s.questions[s.current_question_index] t], followed_up_questions := s.followed_up_questions ++ [s.questions[s.current_question_index].id] }).1 := by
        rw [h6]
      refine ⟨s2, u, b, rfl, ?_, ?_⟩
      · rw [hs2, mtn_cursor]
      · rw [hs2, mtn_followed]
  · intro hc
    rw [process_answer_no_followup s t ms raw fuR h1 h2 hc]
    rcases h6 : move_to_next_question
      { s with eye_contact_logs := s.eye_contact_logs ++ ms, scores := s.scores ++ [hydrate raw s.questions[s.current_question_index] t] }
      with ⟨s2, u, b⟩
    have hs2 : s2 = (move_to_next_question
        { s with eye_contact_logs := s.eye_contact_logs ++ ms, scores := s.scores ++ [hydrate raw s.questions[s.current_question_index] t] }).1 := by
      rw [h6]
    refine ⟨s2, u, b, rfl, ?_, ?_⟩
    · rw [hs2, mtn_cursor]
    · rw [hs2, mtn_followed]

/-- Witness for `C1_followup_decision` at the concrete session `s1`:
the hypotheses hold and a triggered follow-up with successful synthesis
returns the synthesized utterance without advancing the cursor. -/
theorem C1_followup_decision_witness :
    (¬ s1.status = Status.completed) ∧
    s1.current_question_index < s1.questions.length ∧
    ((hydrate lowScore q1 "a").average_score < 3 ∧
      (hydrate lowScore q1 "a").needs_follow_up = true ∧
      q1.id ∉ s1.followed_up_questions) ∧
    ∃ s2, process_answer s1 "a" [] (some lowScore) (some "fu")
        = Except.ok (s2, "fu", false) ∧
      s2.current_question_index = s1.current_question_index ∧
      s2.followed_up_questions = s1.followed_up_questions ++ [q1.id] ∧
      s2.scores = s1.scores ++ [hydrate lowScore q1 "a"] :=
  ⟨by decide, by decide, ⟨by decide, rfl, by decide⟩,
    (((C1_followup_decision s1 "a" [] lowScore (some "fu")
      (by decide) (by decide)).1 ⟨by decide, rfl, by decide⟩).1 "fu" rfl)⟩

/-- C2 counterexample: the length bound fails on a reachable session.
From a fresh session, `analyze_candidate` generates two questions; two
weak answers trigger follow-ups on both (with an advance in between);
re-running `analyze_candidate` then replaces the question list with a
single question but does not clear the followed-up ledger, leaving a
reachable session with 2 followed-up ids and only 1 question. -/
theorem C2_counterexample :
    ∃ s, Reachable s ∧ s.questions.length < s.followed_up_questions.length := by
  have h1 : SessionStep (newSession "w") s1 :=
    SessionStep.analyze _ "cv" "jd" (Except.ok cv0) (Except.ok jd0)
      (Except.ok gap0) (Except.ok [q1, q2])
  have h2 : SessionStep s1 s2t :=
    SessionStep.answer _ "a" [] (some lowScore) (some "fu") _ "fu" false rfl
  have h3 : SessionStep s2t s3t :=
    SessionStep.answer _ "b" [] (some lowScore) (some "fu") _ "Q2" false rfl
  have h4 : SessionStep s3t s4t :=
    SessionStep.answer _ "c" [] (some lowScore) (some "fu") _ "fu" false rfl
  have h5 : SessionStep s4t s5t :=
    SessionStep.analyze _ "cv2" "jd2" (Except.ok cv0) (Except.ok jd0)
      (Except.ok gap0) (Except.ok [q1])
  refine ⟨s5t, ⟨"w", ?_⟩, by decide⟩
  exact Relation.ReflTransGen.tail
    (Relation.ReflTransGen.tail
      (Relation.ReflTransGen.tail
        (Relation.ReflTransGen.tail
          (Relation.ReflTransGen.tail Relation.ReflTransGen.refl h1) h2) h3) h4) h5

/-- C2 (amended): every reachable session has a duplicate-free
followed-up ledger, and every single core operation either leaves the
ledger unchanged or appends exactly one id not already present (so no
question id is ever followed up twice); the claimed bound
`|followed_up| ≤ |questions|` fails only because re-running
`analyze_candidate` replaces the question list without clearing the
ledger. -/
theorem C2_followed_ledger :
    (∀ s, Reachable s → s.followed_up_questions.Nodup) ∧
    (∀ s s2, SessionStep s s2 →
      s2.followed_up_questions = s.followed_up_questions ∨
      ∃ i, i ∉ s.followed_up_questions ∧
        s2.followed_up_questions = s.followed_up_questions ++ [i]) :=
  ⟨reachable_nodup, sessionStep_followed⟩

/-- Witness for `C2_followed_ledger`: a concrete reachable session with
one follow-up recorded, its ledger duplicate-free, and the step that
recorded it appending a fresh id. -/
theorem C2_followed_ledger_witness :
    s2t.followed_up_questions.Nodup ∧
    (s2t.followed_up_questions = s1.followed_up_questions ∨
      ∃ i, i ∉ s1.followed_up_questions ∧
        s2t.followed_up_questions = s1.followed_up_questions ++ [i]) := by
  have h1 : SessionStep (newSession "w") s1 :=
    SessionStep.analyze _ "cv" "jd" (Except.ok cv0) (Except.ok jd0)
      (Except.ok gap0) (Except.ok [q1, q2])
  have h2 : SessionStep s1 s2t :=
    SessionStep.answer _ "a" [] (some lowScore) (some "fu") _ "fu" false rfl
  have hreach : Reachable s2t :=
    ⟨"w", Relation.ReflTransGen.tail
      (Relation.ReflTransGen.tail Relation.ReflTransGen.refl h1) h2⟩
  exact ⟨C2_followed_ledger.1 s2t hreach, C2_followed_ledger.2 s1 s2t h2⟩

/-- C3 counterexample: a reachable session holds an `AnswerScore` whose
dimension scores are 5, 4, 5, 4 (mean 4.5) but whose model-supplied
`average_score` is 1 — nothing in the code computes or validates the
field, so the claimed equality is false. -/
theorem C3_counterexample :
    ∃ s, Reachable s ∧ ∃ a ∈ s.scores,
      a.scores = rubric5454 ∧
      meanScore a.scores = 9/2 ∧
      round2 (meanScore a.scores) = 9/2 ∧
      a.average_score = 1 ∧
      a.average_score ≠ round2 (meanScore a.scores) := by
  have h1 : SessionStep (newSession "w") s1 :=
    SessionStep.analyze _ "cv" "jd" (Except.ok cv0) (Except.ok jd0)
      (Except.ok gap0) (Except.ok [q1, q2])
  have h2 : SessionStep s1 sC3 :=
    SessionStep.answer _ "ans" [] (some badScore) (some "fu") _ "Q2" false rfl
  have hm : meanScore rubric5454 = 9/2 := by
    norm_num [meanScore, rubric5454]
  have hr : round2 ((9:ℚ)/2) = 9/2 := by
    simp only [round2, roundHalfEven]
    norm_num
  refine ⟨sC3, ⟨"w", Relation.ReflTransGen.tail
      (Relation.ReflTransGen.tail Relation.ReflTransGen.refl h1) h2⟩,
    hydrate badScore q1 "ans", by decide, rfl, hm, ?_, rfl, ?_⟩
  · show round2 (meanScore rubric5454) = 9/2
    rw [hm]
    exact hr
  · rw [show (hydrate badScore q1 "ans").average_score = 1 from rfl,
      show (hydrate badScore q1 "ans").scores = rubric5454 from rfl, hm, hr]
    norm_num

/-- C3 (amended): `process_answer` stores `average_score` exactly as the
scoring model supplied it (hydration rewrites only the identifying
fields), so the rounded-mean property holds for every score in the list
iff it held for the model's outputs; and the spec's worked example
5, 4, 5, 4 does have rounded mean 4.5.  The code itself neither computes
nor validates the field. -/
theorem C3_average_passthrough :
    (∀ (s : InterviewSession) (t : String) (ms : List EyeContactMetric)
      (scR : Option AnswerScore) (fuR : Option String)
      (s2 : InterviewSession) (u : String) (b : Bool),
      process_answer s t ms scR fuR = Except.ok (s2, u, b) →
      (∀ a ∈ s.scores, a.average_score = round2 (meanScore a.scores)) →
      (∀ raw, scR = some raw → raw.average_score = round2 (meanScore raw.scores)) →
      ∀ a ∈ s2.scores, a.average_score = round2 (meanScore a.scores)) ∧
    round2 (meanScore rubric5454) = 9/2 := by
  constructor
  · intro s t ms scR fuR s2 u b h hold horacle
    rcases process_answer_ok_scores s t ms scR fuR s2 u b h with
      ⟨_, hsc⟩ | ⟨_, hsc⟩ | ⟨raw, hscR, h2, hsc⟩
    · rw [hsc]
      exact hold
    · rw [hsc]
      exact hold
    · rw [hsc]
      intro a ha
      rcases List.mem_append.mp ha with ha2 | ha2
      · exact hold a ha2
      · have he : a = hydrate raw s.questions[s.current_question_index] t :=
          List.mem_singleton.mp ha2
        rw [he]
        exact horacle raw hscR
  · have hm : meanScore rubric5454 = 9/2 := by
      norm_num [meanScore, rubric5454]
    rw [hm]
    simp only [round2, roundHalfEven]
    norm_num

/-- Witness for `C3_average_passthrough`: a conformant model score
(dimensions 4, 4, 4, 4 with average 4) processed on the concrete session
`s1` yields a score list in which every entry satisfies the rounded-mean
property. -/
theorem C3_average_passthrough_witness :
    ∀ a ∈ ({ s1 with
        current_question_index := 1
        scores := [hydrate goodScore q1 "ok"] } : InterviewSession).scores,
      a.average_score = round2 (meanScore a.scores) :=
  C3_average_passthrough.1 s1 "ok" [] (some goodScore) (some "fu")
    { s1 with current_question_index := 1, scores := [hydrate goodScore q1 "ok"] }
    "Q2" false rfl
    (fun a ha => by
      rw [show s1.scores = [] from rfl] at ha
      exact absurd ha (List.not_mem_nil a))
    (fun raw hr => by
      cases hr
      show (4:ℚ) = round2 (meanScore rubric4444)
      have hm : meanScore rubric4444 = 4 := by
        norm_num [meanScore, rubric4444]
      rw [hm]
      simp only [round2, roundHalfEven]
      norm_num)

/-- C4 counterexample: `analyze_candidate` unconditionally sets
`status = "setup"` on entry (orchestrator.py line 92), so re-running the
analysis on a reachable `completed` session moves the status backwards
to `setup`, contradicting the claimed forward-only transitions. -/
theorem C4_counterexample :
    ∃ sA sB, Reachable sA ∧ SessionStep sA sB ∧
      sA.status = Status.completed ∧ sB.status = Status.setup := by
  have h1 : SessionStep (newSession "w2") sDone :=
    SessionStep.nextQuestion _
  have h2 : SessionStep sDone sBack :=
    SessionStep.analyze _ "cv" "jd" (Except.error "boom") (Except.error "boom")
      (Except.error "boom") (Except.error "boom")
  exact ⟨sDone, sBack,
    ⟨"w2", Relation.ReflTransGen.tail Relation.ReflTransGen.refl h1⟩,
    h2, rfl, rfl⟩

/-- C4 (amended): `get_next_question` and `process_answer` never move
the status backwards — each leaves it unchanged or sets `completed`;
`analyze_candidate` always leaves the status at `setup` (failure) or
`ready` (success), which is the one backward move when it is re-run on a
`ready`, `interviewing` or `completed` session; no core operation ever
sets `error` or `interviewing`. -/
theorem C4_status_monotonicity :
    (∀ s, (get_next_question s).1.status = s.status ∨
      (get_next_question s).1.status = Status.completed) ∧
    (∀ s t ms scR fuR s2 u b,
      process_answer s t ms scR fuR = Except.ok (s2, u, b) →
      s2.status = s.status ∨ s2.status = Status.completed) ∧
    (∀ s ct jt cvR jdR gapR qR,
      (analyze_candidate s ct jt cvR jdR gapR qR).1.status = Status.setup ∨
      (analyze_candidate s ct jt cvR jdR gapR qR).1.status = Status.ready) :=
  ⟨gnq_status, process_answer_ok_status, analyze_status⟩

/-- Witness for `C4_status_monotonicity`: the concrete turn
`s1 → s2t` keeps the status in the allowed set. -/
theorem C4_status_monotonicity_witness :
    s2t.status = s1.status ∨ s2t.status = Status.completed :=
  C4_status_monotonicity.2.1 s1 "a" [] (some lowScore) (some "fu")
    s2t "fu" false rfl

/-- C5 counterexample: when the very first pipeline stage fails, the
error surfaces the stage and cause, but the session's status stays at
`setup` — it is never set to `error`, contradicting the claimed
transition to `error`. -/
theorem C5_counterexample :
    (analyze_candidate (newSession "e") "cv" "jd" (Except.error "boom")
      (Except.ok jd0) (Except.ok gap0) (Except.ok [q1])).2
        = Except.error "Failed to analyze documents: boom" ∧
    (analyze_candidate (newSession "e") "cv" "jd" (Except.error "boom")
      (Except.ok jd0) (Except.ok gap0) (Except.ok [q1])).1.status
        = Status.setup ∧
    Status.setup ≠ Status.error :=
  ⟨rfl, rfl, by decide⟩

/-- C5 (amended): if any stage of the analysis pipeline fails, the whole
pipeline aborts and the raised error carries the failing stage's name
and the underlying cause — but the session's status remains `setup`; it
is not moved to `error`. -/
theorem C5_pipeline_failure (s : InterviewSession) (ct jt : String) :
    (∀ (e : String) (jdR : Except String JDAnalysis)
      (gapR : Except String GapAnalysis) (qR : Except String (List Question)),
      (analyze_candidate s ct jt (Except.error e) jdR gapR qR).2
          = Except.error ("Failed to analyze documents: " ++ e) ∧
      (analyze_candidate s ct jt (Except.error e) jdR gapR qR).1.status
          = Status.setup) ∧
    (∀ (cv : CVAnalysis) (e : String)
      (gapR : Except String GapAnalysis) (qR : Except String (List Question)),
      (analyze_candidate s ct jt (Except.ok cv) (Except.error e) gapR qR).2
          = Except.error ("Failed to analyze documents: " ++ e) ∧
      (analyze_candidate s ct jt (Except.ok cv) (Except.error e) gapR qR).1.status
          = Status.setup) ∧
    (∀ (cv : CVAnalysis) (jd : JDAnalysis) (e : String)
      (qR : Except String (List Question)),
      (analyze_candidate s ct jt (Except.ok cv) (Except.ok jd)
          (Except.error e) qR).2
        = Except.error ("Failed to analyze gaps: " ++ e) ∧
      (analyze_candidate s ct jt (Except.ok cv) (Except.ok jd)
          (Except.error e) qR).1.status = Status.setup) ∧
    (∀ (cv : CVAnalysis) (jd : JDAnalysis) (gap : GapAnalysis) (e : String),
      (analyze_candidate s ct jt (Except.ok cv) (Except.ok jd)
          (Except.ok gap) (Except.error e)).2
        = Except.error ("Failed to generate questions: " ++ e) ∧
      (analyze_candidate s ct jt (Except.ok cv) (Except.ok jd)
          (Except.ok gap) (Except.error e)).1.status = Status.setup) := by
  refine ⟨?_, ?_, ?_, ?_⟩
  · intro e jdR gapR qR
    rcases jdR with e2 | jd <;> exact ⟨rfl, rfl⟩
  · intro cv e gapR qR
    exact ⟨rfl, rfl⟩
  · intro cv jd e qR
    exact ⟨rfl, rfl⟩
  · intro cv jd gap e
    exact ⟨rfl, rfl⟩

/-- C6 (confirmed): `generate_text` fails (with its single failure
message) exactly when the primary model and every fallback model have
each exhausted their 3 retry attempts; any success originates from the
first model in cascade order with a successful attempt, every earlier
model having been exhausted first and every earlier attempt of that
model having failed.  The `tenacity` waits between attempts are the
clamped exponential `max 2 (min (2^(n-1)) 10)`, which stays within
[2s, 10s]. -/
theorem C6_gateway_retry_fallback (respond : RespondOracle) :
    (generate_text respond = Except.error "All models failed." ↔
      ∀ m ∈ primary_model :: fallback_models, exhaustedModel respond m) ∧
    (∀ e, generate_text respond = Except.error e → e = "All models failed.") ∧
    (∀ t, generate_text respond = Except.ok t →
      ∃ pre m post, primary_model :: fallback_models = pre ++ m :: post ∧
        (∀ m2 ∈ pre, exhaustedModel respond m2) ∧
        ∃ a, a < RETRY_LIMIT ∧ respond m a = some t ∧
          ∀ b, b < a → respond m b = none) ∧
    (backoffWait 1 = 2 ∧ backoffWait 2 = 2 ∧
      ∀ n, 2 ≤ backoffWait n ∧ backoffWait n ≤ 10) := by
  refine ⟨?_, ?_, ?_, ?_, ?_, ?_⟩
  · rw [generate_text_eq_cascade]
    exact fallback_cascade_error_iff respond _
  · intro e h
    rw [generate_text_eq_cascade] at h
    exact fallback_cascade_error_only respond _ e h
  · intro t h
    rw [generate_text_eq_cascade] at h
    exact fallback_cascade_ok respond _ t h
  · norm_num [backoffWait]
  · norm_num [backoffWait]
  · intro n
    exact ⟨le_max_left 2 _, max_le (by norm_num) (min_le_right _ _)⟩

/-- Witness for `C6_gateway_retry_fallback`: an oracle that succeeds on
the first attempt yields a success located at the head of the cascade. -/
theorem C6_gateway_retry_fallback_witness :
    generate_text (fun _ _ => some "ok") = Except.ok "ok" ∧
    ∃ pre m post, primary_model :: fallback_models = pre ++ m :: post ∧
      (∀ m2 ∈ pre, exhaustedModel (fun _ _ => some "ok") m2) ∧
      ∃ a, a < RETRY_LIMIT ∧ (fun (_ : String) (_ : Nat) => some "ok") m a = some "ok" ∧
        ∀ b, b < a → (fun (_ : String) (_ : Nat) => some "ok") m b = none :=
  ⟨rfl, (C6_gateway_retry_fallback (fun _ _ => some "ok")).2.2.1 "ok" rfl⟩

/-- C7: evaluation of the embedded rotation logic at the failing input.
With 2 credentials and the pointer at 0, `_get_client` acquires
credential 0 and advances the pointer to 1; the 429 handler advances it
again, wrapping to 0 — so the next acquisition returns credential 0, the
credential that was just throttled, contradicting the claim (the code's
own comment says the rotation is meant to move off the throttled
key). -/
theorem C7_rate_limit_rotation_bug :
    (call_api_attempt ⟨2, 0⟩ (fun _ => Sum.inr true)).2.2 = 0 ∧
    (call_api_attempt ⟨2, 0⟩ (fun _ => Sum.inr true)).2.1 = none ∧
    (get_client (call_api_attempt ⟨2, 0⟩ (fun _ => Sum.inr true)).1).1 = 0 := by
  decide

/-- C8 (confirmed): when the scoring call raises, `process_answer`
swallows the failure, appends nothing, leaves the follow-up ledger
alone, advances the cursor by one, and returns the next utterance (the
next question's text, or the closing utterance when the cursor leaves
the list or the next question's text is empty) — it never raises. -/
theorem C8_scoring_failure_nonblocking (s : InterviewSession) (t : String)
    (ms : List EyeContactMetric) (fuR : Option String)
    (h1 : ¬ s.status = Status.completed)
    (h2 : s.current_question_index < s.questions.length) :
    ∃ s2 u b, process_answer s t ms none fuR = Except.ok (s2, u, b) ∧
      s2.current_question_index = s.current_question_index + 1 ∧
      s2.scores = s.scores ∧
      s2.followed_up_questions = s.followed_up_questions ∧
      ((∃ h3 : s.current_question_index + 1 < s.questions.length,
          b = false ∧ u = s.questions[s.current_question_index + 1].question) ∨
        (b = true ∧
          u = "Thank you for your time. The interview is now complete.")) := by
  rw [process_answer_score_fail s t ms fuR h1 h2]
  rcases move_to_next_question_spec
      { s with eye_contact_logs := s.eye_contact_logs ++ ms }
    with ⟨h3, ht, he⟩ | ⟨h3, ht, he⟩ | ⟨h3, he⟩ <;> rw [he]
  · exact ⟨_, _, _, rfl, rfl, rfl, rfl, Or.inl ⟨h3, rfl, rfl⟩⟩
  · exact ⟨_, _, _, rfl, rfl, rfl, rfl, Or.inr ⟨rfl, rfl⟩⟩
  · exact ⟨_, _, _, rfl, rfl, rfl, rfl, Or.inr ⟨rfl, rfl⟩⟩

/-- Witness for `C8_scoring_failure_nonblocking`: a failed scoring call
on the concrete session `s1` advances to the second question. -/
theorem C8_scoring_failure_nonblocking_witness :
    (¬ s1.status = Status.completed) ∧
    s1.current_question_index < s1.questions.length ∧
    ∃ s2 u b, process_answer s1 "x" [] none none = Except.ok (s2, u, b) ∧
      s2.current_question_index = s1.current_question_index + 1 ∧
      s2.scores = s1.scores ∧
      s2.followed_up_questions = s1.followed_up_questions ∧
      ((∃ h3 : s1.current_question_index + 1 < s1.questions.length,
          b = false ∧ u = s1.questions[s1.current_question_index + 1].question) ∨
        (b = true ∧
          u = "Thank you for your time. The interview is now complete.")) :=
  ⟨by decide, by decide,
    C8_scoring_failure_nonblocking s1 "x" [] none (by decide) (by decide)⟩

/-- C9 counterexample: `process_answer` has no empty-or-sentinel check.
An empty utterance and the `"..."` sentinel the speech layer substitutes
on silence are both scored, and the resulting `AnswerScore` is appended
to the session's score list, contradicting the claimed skip. -/
theorem C9_counterexample :
    (∃ s2, process_answer s1 "" [] (some lowScore) (some "fu")
        = Except.ok (s2, "fu", false) ∧
      s2.scores.length = s1.scores.length + 1) ∧
    (∃ s2, process_answer s1 "..." [] (some lowScore) (some "fu")
        = Except.ok (s2, "fu", false) ∧
      s2.scores.length = s1.scores.length + 1) :=
  ⟨⟨_, rfl, rfl⟩, ⟨_, rfl, rfl⟩⟩

/-- C9 (amended): `process_answer` never skips scoring: on every
successful turn of a live session (any transcript, including the empty
string and the `"..."` sentinel), when the scoring call succeeds the
hydrated score is appended to the session's score list. -/
theorem C9_no_empty_skip (s : InterviewSession) (t : String)
    (ms : List EyeContactMetric) (raw : AnswerScore) (fuR : Option String)
    (h1 : ¬ s.status = Status.completed)
    (h2 : s.current_question_index < s.questions.length) :
    ∀ s2 u b, process_answer s t ms (some raw) fuR = Except.ok (s2, u, b) →
      s2.scores = s.scores ++ [hydrate raw s.questions[s.current_question_index] t] := by
  intro s2 u b h
  rcases process_answer_ok_scores s t ms (some raw) fuR s2 u b h with
    ⟨hcomp, _⟩ | ⟨hnone, _⟩ | ⟨raw2, hsome, h2b, hsc⟩
  · exact absurd hcomp h1
  · cases hnone
  · cases hsome
    exact hsc

/-- Witness for `C9_no_empty_skip`: the empty utterance on the concrete
session `s1` still gets its score appended. -/
theorem C9_no_empty_skip_witness :
    ({ s1 with scores := [hydrate lowScore q1 ""], followed_up_questions := [1] }
        : InterviewSession).scores
      = s1.scores ++ [hydrate lowScore q1 ""] :=
  C9_no_empty_skip s1 "" [] lowScore (some "fu") (by decide) (by decide)
    { s1 with scores := [hydrate lowScore q1 ""], followed_up_questions := [1] }
    "fu" false rfl

/-- C10 (confirmed): with the analyses present and the recommendation
call succeeding, `generate_final_report` always returns a report (no
division by zero): on an empty score list the guard leaves every rubric
entry — relevance, depth, competency, communication, overall — at 0.0
and `questions_answered` is 0; on a non-empty list each dimension entry
is the rounded mean of that dimension and `overall` the rounded mean of
the per-answer averages. -/
theorem C10_report_aggregates (s : InterviewSession) (rec : Recommendation)
    (cv : CVAnalysis) (jd : JDAnalysis) (gap : GapAnalysis)
    (hcv : s.cv_analysis = some cv) (hjd : s.jd_analysis = some jd)
    (hgap : s.gap_analysis = some gap) :
    ∃ r, generate_final_report s (Except.ok rec) = Except.ok r ∧
      r.questions_answered = s.scores.length ∧
      (s.scores = [] →
        r.rubric_scores = ⟨0, 0, 0, 0, 0⟩ ∧ r.questions_answered = 0) ∧
      (s.scores ≠ [] →
        r.rubric_scores.relevance =
          round2 ((s.scores.map fun a => (a.scores.relevance.score : ℚ)).sum
            / s.scores.length) ∧
        r.rubric_scores.depth =
          round2 ((s.scores.map fun a => (a.scores.depth.score : ℚ)).sum
            / s.scores.length) ∧
        r.rubric_scores.competency =
          round2 ((s.scores.map fun a => (a.scores.competency.score : ℚ)).sum
            / s.scores.length) ∧
        r.rubric_scores.communication =
          round2 ((s.scores.map fun a => (a.scores.communication.score : ℚ)).sum
            / s.scores.length) ∧
        r.rubric_scores.overall =
          round2 ((s.scores.map fun a => a.average_score).sum
            / s.scores.length)) := by
  simp only [generate_final_report]
  rw [hcv, hjd, hgap]
  by_cases hs : s.scores = []
  · have hlen : s.scores.length = 0 := by rw [hs]; rfl
    rw [if_neg (by simp [hlen])]
    exact ⟨_, rfl, rfl, fun _ => ⟨rfl, by simp [hlen]⟩, fun hne => absurd hs hne⟩
  · rw [if_pos (fun hl => hs (List.length_eq_zero.mp hl))]
    exact ⟨_, rfl, rfl, fun he => absurd he hs, fun _ => ⟨rfl, rfl, rfl, rfl, rfl⟩⟩

/-- Witness for `C10_report_aggregates`: the concrete session `s1` (all
analyses present, no scores yet) yields a report with an all-zero rubric
map and zero answered questions. -/
theorem C10_report_aggregates_witness :
    s1.cv_analysis = some cv0 ∧ s1.jd_analysis = some jd0 ∧
    s1.gap_analysis = some gap0 ∧
    ∃ r, generate_final_report s1 (Except.ok rec0) = Except.ok r ∧
      r.questions_answered = s1.scores.length ∧
      (s1.scores = [] →
        r.rubric_scores = ⟨0, 0, 0, 0, 0⟩ ∧ r.questions_answered = 0) ∧
      (s1.scores ≠ [] →
        r.rubric_scores.relevance =
          round2 ((s1.scores.map fun a => (a.scores.relevance.score : ℚ)).sum
            / s1.scores.length) ∧
        r.rubric_scores.depth =
          round2 ((s1.scores.map fun a => (a.scores.depth.score : ℚ)).sum
            / s1.scores.length) ∧
        r.rubric_scores.competency =
          round2 ((s1.scores.map fun a => (a.scores.competency.score : ℚ)).sum
            / s1.scores.length) ∧
        r.rubric_scores.communication =
          round2 ((s1.scores.map fun a => (a.scores.communication.score : ℚ)).sum
            / s1.scores.length) ∧
        r.rubric_scores.overall =
          round2 ((s1.scores.map fun a => a.average_score).sum
            / s1.scores.length)) :=
  ⟨rfl, rfl, rfl, C10_report_aggregates s1 rec0 cv0 jd0 gap0 rfl rfl rfl⟩

end Nexus
